import Mathlib

set_option maxRecDepth 8192

/-!
Verification development for the japanese-tutor repository.

The definitions below are a shallow embedding of the Python source:

* `src/japanese_tutor.py` — memory-store tool functions
  (`save_user_profile`, `record_mistake`, `get_mistakes_for_review`,
  `save_lesson_history`, `get_lesson_history`), the transcription event
  handler `on_transcription_message`, and the `heartbeat` task.
* `src/japanese_tutor_clean.py` — `JapaneseTutorProcessor.process_frame`.
* `src/simple_tutor.py` — `JapaneseTutorProcessor.process_frame`.
* `src/build/web_interface_clean.py` — `chat_handler` routing.

JSON objects are modelled as association lists or structures, Python
lists as `List`, absent-or-`None` values as `Option`, and the
result-callback payloads as explicit return values.
-/

namespace JapaneseTutor

/-- Helper for `containsStr`: `needle` occurs contiguously in the list. -/
def infixOfCharList (needle : List Char) : List Char → Bool
  | [] => needle.isEmpty
  | c :: rest => needle.isPrefixOf (c :: rest) || infixOfCharList needle rest

/-- Python `needle in haystack` on strings: `needle` occurs contiguously
inside `haystack`. -/
def containsStr (haystack needle : String) : Bool :=
  infixOfCharList needle.toList haystack.toList

/-- Python `str.lower()` (the source only compares ASCII keywords). -/
def pyLower (s : String) : String := ⟨s.data.map Char.toLower⟩

/-- Python `str.upper()` (the source only compares against `"[IMAGE]"`). -/
def pyUpper (s : String) : String := ⟨s.data.map Char.toUpper⟩

/-- Python `str.strip()`: remove leading and trailing whitespace. -/
def pyStrip (s : String) : String :=
  ⟨((s.data.dropWhile Char.isWhitespace).reverse.dropWhile Char.isWhitespace).reverse⟩

/-- Helper for `pySplit`: split a character list at every separator. -/
def splitOnChar (sep : Char) : List Char → List (List Char)
  | [] => [[]]
  | c :: rest =>
    match splitOnChar sep rest with
    | [] => [[c]]
    | h :: t => if c = sep then [] :: h :: t else (c :: h) :: t

/-- Python `s.split(sep)` for a one-character separator. -/
def pySplit (s : String) (sep : Char) : List String :=
  (splitOnChar sep s.data).map (fun cs => ⟨cs⟩)

/-! ## Memory store: mistakes (`src/japanese_tutor.py` lines 97-144) -/

/-- One entry of a bucket in `mistakes.json`, as appended by
`record_mistake` (lines 108-115): the dict
`{mistake, correction, explanation, timestamp, review_count, last_reviewed}`. -/
structure MistakeEntry where
  mistake : String
  correction : String
  explanation : String
  timestamp : String
  review_count : Nat
  last_reviewed : Option String
deriving DecidableEq

/-- The `mistakes.json` object created by `initialize_memory` (lines 62-68):
three buckets keyed `vocabulary`, `grammar`, `pronunciation`, in that
insertion order (Python dicts iterate in insertion order, and no other key
is ever added). -/
structure Mistakes where
  vocabulary : List MistakeEntry
  grammar : List MistakeEntry
  pronunciation : List MistakeEntry
deriving DecidableEq

/-- The seed value written by `initialize_memory`: all three buckets empty. -/
def emptyMistakes : Mistakes := ⟨[], [], []⟩

/-- Structured value delivered to a tool's `result_callback`. -/
inductive ToolResult where
  | success (message : String)
  | failure (error : String)
deriving DecidableEq

/-- Python `mistake_type in mistakes` membership plus lookup: `some` bucket
when the key is one of the three, `none` otherwise. -/
def mistakesBucket (m : Mistakes) (k : String) : Option (List MistakeEntry) :=
  if k = "vocabulary" then some m.vocabulary
  else if k = "grammar" then some m.grammar
  else if k = "pronunciation" then some m.pronunciation
  else none

/-- `record_mistake` (lines 97-122).  `type?`, `mistake?`, `correction?`,
`explanation?` model `args.get(key, default)`; `now` models
`datetime.now().isoformat()`.  The body appends the new entry only when
`mistake_type` is a key of the mistakes dict, and the callback always
receives `{"success": True, "message": f"{mistake_type} mistake recorded"}`
(line 120) — there is no error branch for an unknown kind. -/
def record_mistake (m : Mistakes) (type? mistake? correction? explanation? : Option String)
    (now : String) : Mistakes × ToolResult :=
  let mistake_type := type?.getD "vocabulary"
  let entry : MistakeEntry :=
    ⟨mistake?.getD "", correction?.getD "", explanation?.getD "", now, 0, none⟩
  let m' :=
    if mistake_type = "vocabulary" then { m with vocabulary := m.vocabulary ++ [entry] }
    else if mistake_type = "grammar" then { m with grammar := m.grammar ++ [entry] }
    else if mistake_type = "pronunciation" then { m with pronunciation := m.pronunciation ++ [entry] }
    else m
  (m', ToolResult.success (mistake_type ++ " mistake recorded"))

/-- The mixed branch of `get_mistakes_for_review` (lines 137-140): for each
bucket in insertion order take the first `limit // 3 + 1` entries, then
truncate the concatenation to `limit`. -/
def mixedReview (m : Mistakes) (limit : Nat) : List MistakeEntry :=
  (m.vocabulary.take (limit / 3 + 1) ++ m.grammar.take (limit / 3 + 1)
    ++ m.pronunciation.take (limit / 3 + 1)).take limit

/-- `get_mistakes_for_review` (lines 124-144), selection of returned items.
`mistake_type` models `args.get("type", None)` (an empty string is falsy in
Python and also fails the `in mistakes` test, so it lands in the mixed
branch exactly like `none`); `limit` models `args.get("limit", 5)` for the
non-negative values the tool schema allows. -/
def get_mistakes_for_review (m : Mistakes) (mistake_type : Option String) (limit : Nat) :
    List MistakeEntry :=
  match mistake_type with
  | some t =>
    match mistakesBucket m t with
    | some bucket => bucket.take limit
    | none => mixedReview m limit
  | none => mixedReview m limit

/-- The whole `get_mistakes_for_review` call viewed as a state transition on
the persisted store: the function opens `MISTAKES_PATH` read-only (line 129)
and contains no write back, so the store after the call is exactly the store
before it, paired with the items handed to the callback. -/
def get_mistakes_for_review_op (m : Mistakes) (mistake_type : Option String) (limit : Nat) :
    Mistakes × List MistakeEntry :=
  (m, get_mistakes_for_review m mistake_type limit)

/-! ## Memory store: user profile (`src/japanese_tutor.py` lines 71-86)

The stored profile is a JSON object; we model it as an association list so
that the key-membership test of the source is represented exactly.  The
value type is a parameter because the update loop never inspects values. -/

/-- Python `key in profile`. -/
def hasKey {V : Type} (p : List (String × V)) (k : String) : Bool :=
  p.any (fun kv => kv.1 = k)

/-- Python `profile[key] = value` on an existing key: the binding keeps its
position, only the value changes (JSON object keys are unique). -/
def setKey {V : Type} (p : List (String × V)) (k : String) (v : V) : List (String × V) :=
  p.map (fun kv => if kv.1 = k then (k, v) else kv)

/-- Python dict lookup (first matching key). -/
def lookupKey {V : Type} (p : List (String × V)) (k : String) : Option V :=
  match p with
  | [] => none
  | a :: rest => if a.1 = k then some a.2 else lookupKey rest k

/-- `save_user_profile` (lines 71-86), the update loop
`for key, value in args.items(): if key in profile: profile[key] = value`.
Keys of `args` absent from the stored profile are skipped silently. -/
def save_user_profile {V : Type} (p : List (String × V)) (args : List (String × V)) :
    List (String × V) :=
  args.foldl (fun acc kv => if hasKey acc kv.1 then setKey acc kv.1 kv.2 else acc) p

/-- The value the update loop leaves at key `k`: the last value bound to `k`
in `args`, if any.  (Helper for reasoning about `save_user_profile`.) -/
def lastAssign {V : Type} (args : List (String × V)) (k : String) : Option V :=
  match args with
  | [] => none
  | a :: rest =>
    match lastAssign rest k with
    | some v => some v
    | none => if a.1 = k then some a.2 else none

/-! ## Memory store: lesson history (`src/japanese_tutor.py` lines 146-178) -/

/-- One record of `lesson_history.json`, as appended by
`save_lesson_history` (lines 154-158). -/
structure LessonRecord where
  topic : String
  content : String
  timestamp : String
deriving DecidableEq

/-- `get_lesson_history` (lines 167-178):
`recent_lessons = history[-limit:] if history else []`.  The Python slice
`history[-limit:]` is the whole list when `limit = 0` (`-0 == 0`) and the
last `min limit (length history)` elements when `limit ≥ 1`, which for a
natural `limit` is `drop (length - limit)`. -/
def get_lesson_history (history : List LessonRecord) (limit : Nat) : List LessonRecord :=
  if history.isEmpty then []
  else if limit = 0 then history
  else history.drop (history.length - limit)

/-! ## Frames, turns and pipeline processors -/

/-- One conversation message, the dict `{"role": ..., "content": ...}`. -/
structure Turn where
  role : String
  content : String
deriving DecidableEq

/-- Direction argument of `FrameProcessor.process_frame` / `push_frame`
(pipecat `FrameDirection`). -/
inductive FrameDirection where
  | downstream
  | upstream
deriving DecidableEq

/-- The frame kinds the repository's processors branch on.  `other` stands
for every frame type none of the modelled processors tests for (audio,
start/stop, control, error frames, ...), identified by a tag so distinct
unrecognized frames stay distinct. -/
inductive Frame where
  | transcription (text : String)
  | text (text : String)
  | llmMessages (messages : List Turn)
  | image (data : String)
  | other (kind : String)
deriving DecidableEq

/-- The `_system_prompt` of `JapaneseTutorProcessor` in
`src/japanese_tutor_clean.py` (lines 131-142). -/
def cleanSystemPrompt : String :=
  "You are a Japanese language tutor helping beginners learn Japanese.\nCRITICAL INSTRUCTIONS:\n1. Give EXACTLY ONE response to each question\n2. NEVER provide multiple alternative answers\n3. NEVER repeat yourself in any way\n4. Keep responses under 20 words total\n5. Always include romaji with Japanese characters\n6. NEVER say \"message got cut off\" or similar phrases\n7. If asked about an image or camera, say \"Please use the \x27Upload Image\x27 button to share an image\"\n8. If the user types \"stop\" or \"quit\", respond with only \"Sayonara! Goodbye!\"\n\nYour goal is to be extremely concise and never redundant."

/-- The fixed reply pushed for camera/look-at inputs
(`src/japanese_tutor_clean.py` lines 160 and 181). -/
def uploadPrompt : String := "Please use the \x27Upload Image\x27 button to share an image."

/-- `JapaneseTutorProcessor.process_frame` of `src/japanese_tutor_clean.py`
(lines 144-191), as the multiset of frames pushed for one input frame.
Every `self.push_frame(x)` call in the method passes no direction argument,
so pipecat's default `FrameDirection.DOWNSTREAM` applies; the incoming
`direction` parameter is never consulted. -/
def cleanProcessFrame (frame : Frame) (direction : FrameDirection) :
    List (Frame × FrameDirection) :=
  match frame with
  | Frame.transcription t =>
    let textLower := pyLower t
    if containsStr (pyUpper t) "[IMAGE]" || containsStr textLower "camera"
        || containsStr textLower "look at" then
      if containsStr textLower "camera" || containsStr textLower "look at" then
        [(Frame.text uploadPrompt, FrameDirection.downstream)]
      else
        [(Frame.llmMessages [⟨"system", cleanSystemPrompt⟩, ⟨"user", t⟩],
          FrameDirection.downstream)]
    else
      [(Frame.llmMessages [⟨"system", cleanSystemPrompt⟩, ⟨"user", t⟩],
        FrameDirection.downstream)]
  | Frame.text t =>
    let textLower := pyLower t
    if containsStr textLower "camera" || containsStr textLower "look at" then
      [(Frame.text uploadPrompt, FrameDirection.downstream)]
    else
      [(Frame.llmMessages [⟨"system", cleanSystemPrompt⟩, ⟨"user", t⟩],
        FrameDirection.downstream)]
  | f => [(f, FrameDirection.downstream)]

/-- The `_system_prompt` of `JapaneseTutorProcessor` in
`src/simple_tutor.py` (lines 67-74). -/
def simpleSystemPrompt : String :=
  "You are a Japanese language tutor helping beginners learn Japanese. \nBe concise, patient, and helpful. Your responses should be brief and to the point.\nUse simple Japanese phrases and provide explanations in English. \nFocus on practical, everyday Japanese.\nAlways provide romaji (Roman letters) along with Japanese characters.\nIMPORTANT: Keep your responses short and focused. Do not repeat yourself.\nDO NOT say \"it looks like your message got cut off\" - just answer the question directly.\nIf the user types \"stop\" or \"quit\", respond with only \"Sayonara! Goodbye!\".."

/-- `JapaneseTutorProcessor.process_frame` of `src/simple_tutor.py`
(lines 76-101).  As in the clean variant, every `push_frame` call omits the
direction argument, so the pipecat default `DOWNSTREAM` applies. -/
def simpleProcessFrame (frame : Frame) (direction : FrameDirection) :
    List (Frame × FrameDirection) :=
  match frame with
  | Frame.transcription t =>
    [(Frame.llmMessages [⟨"system", simpleSystemPrompt⟩, ⟨"user", t⟩],
      FrameDirection.downstream)]
  | Frame.text t =>
    [(Frame.llmMessages [⟨"system", simpleSystemPrompt⟩, ⟨"user", t⟩],
      FrameDirection.downstream)]
  | f => [(f, FrameDirection.downstream)]

/-- Frame kinds the tutor processors branch on explicitly; all others hit
the final `else: await self.push_frame(frame)` line. -/
def tutorHandles : Frame → Bool
  | Frame.transcription _ => true
  | Frame.text _ => true
  | _ => false

/-- `on_transcription_message` of `src/japanese_tutor.py` (lines 557-587).
`messages` is the module-level conversation list that was passed to
`OpenAILLMContext(messages, tools)`, so appending to it extends the very
context the aggregator wraps.  Given the extracted `text` and `is_final`
flag, the handler returns the updated message list together with the
message list carried by the context frame queued for the LLM (`none` when
nothing is queued): only a final transcription with non-blank text appends
`{"role": "user", "content": text}` and queues
`context_aggregator.user().get_context_frame()`, whose context holds the
whole updated list. -/
def onTranscriptionMessage (messages : List Turn) (text : String) (isFinal : Bool) :
    List Turn × Option (List Turn) :=
  if pyStrip text = "" then (messages, none)
  else if isFinal then
    let ms := messages ++ [⟨"user", text⟩]
    (ms, some ms)
  else (messages, none)

/-! ## Web interface (`src/build/web_interface_clean.py`) -/

/-- The module-level `SYSTEM_PROMPT` of `src/build/web_interface_clean.py`
(lines 25-36); its text coincides with the clean processor's prompt. -/
def webSystemPrompt : String :=
  "You are a Japanese language tutor helping beginners learn Japanese.\nCRITICAL INSTRUCTIONS:\n1. Give EXACTLY ONE response to each question\n2. NEVER provide multiple alternative answers\n3. NEVER repeat yourself in any way\n4. Keep responses under 20 words total\n5. Always include romaji with Japanese characters\n6. NEVER say \"message got cut off\" or similar phrases\n7. If asked about an image or camera, say \"Please use the \x27Upload Image\x27 button to share an image\"\n8. If the user types \"stop\" or \"quit\", respond with only \"Sayonara! Goodbye!\"\n\nYour goal is to be extremely concise and never redundant."

/-- One part of a Gemini API message: a text part or an inline image. -/
inductive GeminiPart where
  | text (s : String)
  | inlineData (mimeType : String) (data : String)
deriving DecidableEq

/-- One message of the Gemini request body. -/
structure GeminiMsg where
  role : String
  parts : List GeminiPart
deriving DecidableEq

/-- Role mapping of `chat_handler`: `"user" if msg["role"] == "user" else "model"`. -/
def geminiRole (r : String) : String := if r = "user" then "user" else "model"

/-- The `gemini_messages` list built by `chat_handler` (lines 67-104): the
system prompt as a user part, a fixed model acknowledgement, then the
conversation history, where a user message that is structurally equal to
the last history entry gets the uploaded image inlined after its text part
(the data URL is split at the first comma, part `[1]`).  `imageData`
models a present, non-empty `image_data`; Python treats `None` and `""`
alike as absent. -/
def buildGeminiMessages (history : List Turn) (imageData : Option String) : List GeminiMsg :=
  [⟨"user", [GeminiPart.text webSystemPrompt]⟩,
   ⟨"model", [GeminiPart.text "I\x27ll follow these instructions carefully."]⟩]
  ++ history.map (fun msg =>
    if msg.role = "user" ∧ imageData.isSome ∧ history.getLast? = some msg then
      ⟨geminiRole msg.role,
        (if msg.content ≠ "" then [GeminiPart.text msg.content] else [])
        ++ (match imageData with
            | some d =>
              if containsStr d "," then
                [GeminiPart.inlineData "image/jpeg" ((pySplit d ',').getD 1 "")]
              else []
            | none => [])⟩
    else ⟨geminiRole msg.role, [GeminiPart.text msg.content]⟩)

/-- What `chat_handler` does with one request: either a locally produced
reply (the keyless fallback) or an HTTP request to the Gemini model with
the given contents. -/
inductive ChatOutcome where
  | fallbackReply (response : String)
  | llmRequest (contents : List GeminiMsg)
deriving DecidableEq

/-- The keyless fallback of `chat_handler` (lines 108-118): fixed replies
chosen by case-insensitive substring tests, evaluated in source order. -/
def chatFallback (message : String) : String :=
  let m := pyLower message
  if containsStr m "lamp" then "ランプ (ranpu) is lamp in Japanese."
  else if containsStr m "camera" || containsStr m "look at" then
    "Please use the \x27Upload Image\x27 button to share an image."
  else if containsStr m "hello" || containsStr m "hi" then
    "こんにちは (konnichiwa)! How can I help?"
  else if containsStr m "stop" || containsStr m "quit" then "Sayonara! Goodbye!"
  else "日本語 (nihongo) means Japanese language."

/-- `chat_handler` (lines 58-166) up to the choice of reply: the user
message is appended to the conversation history, the Gemini request body is
built (lines 67-104, used only on the keyed path), and then either the
request is POSTed to the Gemini endpoint (`GEMINI_API_KEY` set) or the
keyless fallback reply is produced. -/
def chat_handler (hasGeminiKey : Bool) (history : List Turn) (message : String)
    (imageData : Option String) : ChatOutcome :=
  let hist := history ++ [⟨"user", message⟩]
  if hasGeminiKey then ChatOutcome.llmRequest (buildGeminiMessages hist imageData)
  else ChatOutcome.fallbackReply (chatFallback message)

/-! ## Heartbeat (`src/japanese_tutor.py` lines 255-272) -/

/-- The frames queued by one 60-second tick of the `heartbeat` task: the
body executes `await task.queue_frames([])` (line 265), i.e. it queues the
empty list of frames. -/
def heartbeatQueuedFrames : List Frame := []

/-- The frames the heartbeat task has injected into the pipeline after `n`
ticks, appended to whatever `queued` frames were already pending.  The loop
runs unconditionally (no state or activity check guards the tick). -/
def queueAfterHeartbeatTicks (queued : List Frame) : Nat → List Frame
  | 0 => queued
  | n + 1 => queueAfterHeartbeatTicks (queued ++ heartbeatQueuedFrames) n

/-- Fixture: a mistake entry whose textual fields are built from a label,
with the `review_count`/`last_reviewed` values `record_mistake` writes. -/
def mE (label : String) : MistakeEntry := ⟨label, "", "", "", 0, none⟩

/-- Fixture store: three vocabulary, three grammar, two pronunciation
entries — every bucket holds at least 2 entries. -/
def reviewStoreA : Mistakes :=
  ⟨[mE "v1", mE "v2", mE "v3"], [mE "g1", mE "g2", mE "g3"], [mE "p1", mE "p2"]⟩

/-- Fixture store: four vocabulary, three grammar, two pronunciation entries. -/
def reviewStoreB : Mistakes :=
  ⟨[mE "w1", mE "w2", mE "w3", mE "w4"], [mE "x1", mE "x2", mE "x3"], [mE "y1", mE "y2"]⟩

/-- Fixture profile mirroring the seeded `user_profile.json` shape. -/
def profileFixture : List (String × String) := [("name", ""), ("level", "beginner")]

/-- Fixture update arguments: one known key, one unknown key. -/
def argsFixture : List (String × String) := [("name", "Aiko"), ("unknown_field", "x")]

/-! ## Helper lemmas about `save_user_profile` -/

/-- A leading binding for a different key does not change `lastAssign`. -/
theorem lastAssign_cons_ne {V : Type} (a : String × V) (rest : List (String × V))
    (k : String) (h : a.1 ≠ k) : lastAssign (a :: rest) k = lastAssign rest k := by
  simp only [lastAssign]
  cases hr : lastAssign rest k
  · simp [h]
  · rfl

/-- Closed form of the update loop: every binding keeps its key and
position; its value becomes the last value `args` assigns to that key,
if any. -/
theorem save_user_profile_closed_form {V : Type} (args p : List (String × V)) :
    save_user_profile p args
      = p.map (fun kv => (kv.1, (lastAssign args kv.1).getD kv.2)) := by
  induction args generalizing p with
  | nil =>
    show p = p.map fun kv => (kv.1, (lastAssign ([] : List (String × V)) kv.1).getD kv.2)
    simp [lastAssign]
  | cons a rest ih =>
    show save_user_profile (if hasKey p a.1 then setKey p a.1 a.2 else p) rest = _
    by_cases h : hasKey p a.1
    · rw [if_pos h, ih, setKey, List.map_map]
      apply List.map_congr_left
      intro kv _
      by_cases hk : kv.1 = a.1
      · show (fun kv => (kv.1, (lastAssign rest kv.1).getD kv.2))
            (if kv.1 = a.1 then (a.1, a.2) else kv)
            = (kv.1, (lastAssign (a :: rest) kv.1).getD kv.2)
        rw [if_pos hk]
        show (a.1, (lastAssign rest a.1).getD a.2)
            = (kv.1, (lastAssign (a :: rest) kv.1).getD kv.2)
        rw [hk]
        simp only [lastAssign]
        cases hr : lastAssign rest a.1 <;> simp
      · show (fun kv => (kv.1, (lastAssign rest kv.1).getD kv.2))
            (if kv.1 = a.1 then (a.1, a.2) else kv)
            = (kv.1, (lastAssign (a :: rest) kv.1).getD kv.2)
        rw [if_neg hk]
        show (kv.1, (lastAssign rest kv.1).getD kv.2)
            = (kv.1, (lastAssign (a :: rest) kv.1).getD kv.2)
        rw [lastAssign_cons_ne a rest kv.1 fun he => hk he.symm]
    · rw [if_neg h, ih]
      apply List.map_congr_left
      intro kv hkv
      have hk : kv.1 ≠ a.1 := by
        intro he
        apply h
        simp only [hasKey, List.any_eq_true]
        exact ⟨kv, hkv, by simp [he]⟩
      show (kv.1, (lastAssign rest kv.1).getD kv.2)
          = (kv.1, (lastAssign (a :: rest) kv.1).getD kv.2)
      rw [lastAssign_cons_ne a rest kv.1 fun he => hk he.symm]

/-- If `args` never assigns key `k`, `lastAssign` finds nothing. -/
theorem lastAssign_of_not_mem {V : Type} (args : List (String × V)) (k : String)
    (h : k ∉ args.map Prod.fst) : lastAssign args k = none := by
  induction args with
  | nil => rfl
  | cons a rest ih =>
    simp only [List.map_cons, List.mem_cons, not_or] at h
    simp only [lastAssign, ih h.2]
    exact if_neg fun he => h.1 he.symm

/-- Lookup misses every association list that does not carry the key. -/
theorem lookupKey_of_not_mem {V : Type} (p : List (String × V)) (k : String)
    (h : k ∉ p.map Prod.fst) : lookupKey p k = none := by
  induction p with
  | nil => rfl
  | cons a rest ih =>
    simp only [List.map_cons, List.mem_cons, not_or] at h
    simp only [lookupKey, ih h.2]
    exact if_neg fun he => h.1 he.symm

/-! ## Claim theorems -/

/-- C1, counterexample.  A store whose buckets hold 3/3/2 entries — every
bucket has at least 2 — refutes the claimed fairness of
`get_mistakes_for_review(limit=6)` with no kind: the code takes
`6 // 3 + 1 = 3` entries per bucket and truncates to 6, so the result is
the three vocabulary entries followed by the three grammar entries; the
pronunciation bucket contributes nothing (not all three kinds are
represented) and the vocabulary bucket contributes 3 > ⌈6/3⌉ = 2. -/
theorem review_fairness_counterexample :
    (2 ≤ reviewStoreA.vocabulary.length ∧ 2 ≤ reviewStoreA.grammar.length
      ∧ 2 ≤ reviewStoreA.pronunciation.length)
    ∧ get_mistakes_for_review reviewStoreA none 6
        = [mE "v1", mE "v2", mE "v3", mE "g1", mE "g2", mE "g3"]
    ∧ mE "p1" ∉ get_mistakes_for_review reviewStoreA none 6
    ∧ mE "p2" ∉ get_mistakes_for_review reviewStoreA none 6 := by decide

/-- C1, amended.  With a kind given, `get_mistakes_for_review` returns the
first `limit` entries of that bucket in insertion order.  With no kind it
returns at most `limit` entries, taken `limit // 3 + 1` per bucket in
bucket order and truncated; consequently for `limit = 6`, whenever the
vocabulary and grammar buckets each hold at least 3 entries the result is
exactly the first 3 vocabulary entries followed by the first 3 grammar
entries and the pronunciation bucket is squeezed out entirely. -/
theorem review_selection_amended (s : Mistakes) (limit : Nat) :
    (get_mistakes_for_review s (some "vocabulary") limit = s.vocabulary.take limit
      ∧ get_mistakes_for_review s (some "grammar") limit = s.grammar.take limit
      ∧ get_mistakes_for_review s (some "pronunciation") limit = s.pronunciation.take limit)
    ∧ (get_mistakes_for_review s none limit).length ≤ limit
    ∧ (3 ≤ s.vocabulary.length → 3 ≤ s.grammar.length →
        get_mistakes_for_review s none 6 = s.vocabulary.take 3 ++ s.grammar.take 3) := by
  refine ⟨⟨?_, ?_, ?_⟩, ?_, fun hv hg => ?_⟩
  · simp [get_mistakes_for_review, mistakesBucket]
  · simp [get_mistakes_for_review, mistakesBucket]
  · simp [get_mistakes_for_review, mistakesBucket]
  · simp only [get_mistakes_for_review, mixedReview]
    exact List.length_take_le _ _
  · simp only [get_mistakes_for_review, mixedReview]
    have h3 : (6 : Nat) / 3 + 1 = 3 := by norm_num
    rw [h3]
    have hAB : (s.vocabulary.take 3 ++ s.grammar.take 3).length = 6 := by
      simp only [List.length_append, List.length_take]
      omega
    rw [List.take_append_eq_append_take, hAB]
    simp [List.take_of_length_le hAB.le]

/-- C1, witness for the amended theorem at a concrete store with 4/3/2
bucket sizes. -/
theorem review_selection_amended_witness :
    (3 ≤ reviewStoreB.vocabulary.length ∧ 3 ≤ reviewStoreB.grammar.length)
    ∧ get_mistakes_for_review reviewStoreB none 6
        = reviewStoreB.vocabulary.take 3 ++ reviewStoreB.grammar.take 3 :=
  ⟨⟨by decide, by decide⟩,
   (review_selection_amended reviewStoreB 6).2.2 (by decide) (by decide)⟩

/-- C2, counterexample.  In `japanese_tutor_clean.py` the context pushed to
the LLM for a final transcription is always exactly
`[system prompt, latest user utterance]`: for a session whose history
contains a prior user turn (here `konnichiwa`), the frame emitted for the
next transcription `arigatou` does not contain that prior turn — precisely
the fragment holding only the latest user utterance that the claim rules
out. -/
theorem context_completeness_counterexample :
    cleanProcessFrame (Frame.transcription "arigatou") FrameDirection.downstream
      = [(Frame.llmMessages [⟨"system", cleanSystemPrompt⟩, ⟨"user", "arigatou"⟩],
          FrameDirection.downstream)]
    ∧ (⟨"user", "konnichiwa"⟩ : Turn)
        ∉ [(⟨"system", cleanSystemPrompt⟩ : Turn), ⟨"user", "arigatou"⟩] := by decide

/-- C2, amended.  In `japanese_tutor.py`, `on_transcription_message` on a
final, non-blank transcription appends the user turn to the shared message
list and queues a context frame carrying exactly that full updated list —
the system prompt head, every prior turn in original order, and the new
user turn, each exactly once.  In `japanese_tutor_clean.py`, by contrast,
the processor always delivers exactly `[system prompt, new user turn]`,
discarding all prior turns. -/
theorem context_completeness_amended (msgs : List Turn) (text : String)
    (hblank : pyStrip text ≠ "")
    (hcam : containsStr (pyLower text) "camera" = false)
    (hlook : containsStr (pyLower text) "look at" = false) :
    onTranscriptionMessage msgs text true
      = (msgs ++ [⟨"user", text⟩], some (msgs ++ [⟨"user", text⟩]))
    ∧ cleanProcessFrame (Frame.transcription text) FrameDirection.downstream
      = [(Frame.llmMessages [⟨"system", cleanSystemPrompt⟩, ⟨"user", text⟩],
          FrameDirection.downstream)] := by
  constructor
  · simp [onTranscriptionMessage, hblank]
  · cases hImg : containsStr (pyUpper text) "[IMAGE]" <;>
      simp [cleanProcessFrame, hImg, hcam, hlook]

/-- C2, witness for the amended theorem at a concrete history and
transcription. -/
theorem context_completeness_amended_witness :
    (pyStrip "arigatou" ≠ "" ∧ containsStr (pyLower "arigatou") "camera" = false
      ∧ containsStr (pyLower "arigatou") "look at" = false)
    ∧ onTranscriptionMessage [⟨"system", "prompt"⟩] "arigatou" true
        = ([⟨"system", "prompt"⟩, ⟨"user", "arigatou"⟩],
           some [⟨"system", "prompt"⟩, ⟨"user", "arigatou"⟩]) :=
  ⟨⟨by decide, by decide, by decide⟩,
   (context_completeness_amended [⟨"system", "prompt"⟩] "arigatou" (by decide) (by decide)
      (by decide)).1⟩

/-- C3, counterexample.  `record_mistake` with the unknown kind
`"spelling"` leaves the store unchanged but delivers
`{"success": True, "message": "spelling mistake recorded"}` to the result
callback — a success, not the claimed `ValidationError` structured
failure. -/
theorem record_mistake_unknown_kind_counterexample :
    record_mistake emptyMistakes (some "spelling") (some "wrong") (some "right")
        (some "because") "2024-01-01T00:00:00"
      = (emptyMistakes, ToolResult.success "spelling mistake recorded") := by decide

/-- C3, amended.  `record_mistake` with a kind outside
`{vocabulary, grammar, pronunciation}` leaves the store unchanged and the
callback receives a success message naming the unknown kind (the invalid
kind is silently ignored, no `ValidationError` is raised); with a valid
kind it appends to that bucket a new entry carrying `review_count = 0` and
`last_reviewed = null`, leaving the other buckets unchanged. -/
theorem record_mistake_amended (m : Mistakes) (mi co ex : Option String) (now t : String)
    (h1 : t ≠ "vocabulary") (h2 : t ≠ "grammar") (h3 : t ≠ "pronunciation") :
    record_mistake m (some t) mi co ex now
      = (m, ToolResult.success (t ++ " mistake recorded"))
    ∧ record_mistake m (some "vocabulary") mi co ex now
      = ({ m with vocabulary := m.vocabulary
              ++ [⟨mi.getD "", co.getD "", ex.getD "", now, 0, none⟩] },
         ToolResult.success ("vocabulary" ++ " mistake recorded"))
    ∧ record_mistake m (some "grammar") mi co ex now
      = ({ m with grammar := m.grammar
              ++ [⟨mi.getD "", co.getD "", ex.getD "", now, 0, none⟩] },
         ToolResult.success ("grammar" ++ " mistake recorded"))
    ∧ record_mistake m (some "pronunciation") mi co ex now
      = ({ m with pronunciation := m.pronunciation
              ++ [⟨mi.getD "", co.getD "", ex.getD "", now, 0, none⟩] },
         ToolResult.success ("pronunciation" ++ " mistake recorded")) := by
  refine ⟨?_, ?_, ?_, ?_⟩ <;> simp [record_mistake, h1, h2, h3]

/-- C3, witness for the amended theorem at the unknown kind `"kanji"`. -/
theorem record_mistake_amended_witness :
    ("kanji" ≠ "vocabulary" ∧ "kanji" ≠ "grammar" ∧ "kanji" ≠ "pronunciation")
    ∧ record_mistake emptyMistakes (some "kanji") (some "a") (some "b") (some "c") "t2"
        = (emptyMistakes, ToolResult.success ("kanji" ++ " mistake recorded")) :=
  ⟨⟨by decide, by decide, by decide⟩,
   (record_mistake_amended emptyMistakes (some "a") (some "b") (some "c") "t2" "kanji"
      (by decide) (by decide) (by decide)).1⟩

/-- C4, evaluation at the failing input.  `get_mistakes_for_review` only
reads `mistakes.json`; for a store holding one vocabulary entry with
`review_count = 0` and `last_reviewed = null`, the call surfaces the entry
for review yet the stored entry keeps `review_count = 0` and
`last_reviewed = null` — the claimed increment-on-read never happens. -/
theorem review_read_does_not_update_entries :
    get_mistakes_for_review_op ⟨[mE "tabemasu"], [], []⟩ none 5
      = (⟨[mE "tabemasu"], [], []⟩, [mE "tabemasu"])
    ∧ (mE "tabemasu").review_count = 0 ∧ (mE "tabemasu").last_reviewed = none := by decide

/-- C5, counterexample.  The claim's own example input `"STOP"` equals
`"stop"` after trim and lowercasing, yet the clean tutor processor forwards
it to the LLM stage as a context frame and emits no farewell `TextFrame` at
all — the router never short-circuits stop/quit. -/
theorem stop_quit_routing_counterexample :
    pyLower (pyStrip "STOP") = "stop"
    ∧ cleanProcessFrame (Frame.text "STOP") FrameDirection.downstream
        = [(Frame.llmMessages [⟨"system", cleanSystemPrompt⟩, ⟨"user", "STOP"⟩],
            FrameDirection.downstream)]
    ∧ (Frame.text "Sayonara! Goodbye!", FrameDirection.downstream)
        ∉ cleanProcessFrame (Frame.text "STOP") FrameDirection.downstream := by decide

/-- C5, amended.  The pipeline router has no stop/quit rule: any text
without a camera/look-at marker — `"stop"` and `"quit"` included — is
forwarded to the LLM as `[system prompt, user text]` (the farewell is
delegated to the LLM via prompt instruction 8).  The fixed farewell is
produced locally only by the keyless web fallback, which matches
`"stop"`/`"quit"` as case-insensitive substrings after the lamp, camera
and hello rules, so it fires on any input containing them. -/
theorem stop_quit_routing_amended (t : String)
    (hcam : containsStr (pyLower t) "camera" = false)
    (hlook : containsStr (pyLower t) "look at" = false) :
    cleanProcessFrame (Frame.text t) FrameDirection.downstream
      = [(Frame.llmMessages [⟨"system", cleanSystemPrompt⟩, ⟨"user", t⟩],
          FrameDirection.downstream)]
    ∧ chatFallback "stop" = "Sayonara! Goodbye!"
    ∧ chatFallback "  STOP  " = "Sayonara! Goodbye!"
    ∧ chatFallback "I never want to stop learning" = "Sayonara! Goodbye!" := by
  refine ⟨?_, by decide, by decide, by decide⟩
  simp [cleanProcessFrame, hcam, hlook]

/-- C5, witness for the amended theorem at the input `"stop"`. -/
theorem stop_quit_routing_amended_witness :
    (containsStr (pyLower "stop") "camera" = false
      ∧ containsStr (pyLower "stop") "look at" = false)
    ∧ cleanProcessFrame (Frame.text "stop") FrameDirection.downstream
        = [(Frame.llmMessages [⟨"system", cleanSystemPrompt⟩, ⟨"user", "stop"⟩],
            FrameDirection.downstream)] :=
  ⟨⟨by decide, by decide⟩, (stop_quit_routing_amended "stop" (by decide) (by decide)).1⟩

/-- C6, counterexample.  In the web interface, `"please look at this"`
with an image attached but no API key gets the fixed upload prompt — the
turn is not forwarded to the LLM with the image content, contradicting the
claim's image-attached case; and with an API key the same text with no
image is POSTed to the Gemini model — it does reach the LLM stage,
contradicting the claim's never-reaches-the-LLM case. -/
theorem camera_routing_counterexample :
    chat_handler false [] "please look at this" (some "data:image/jpeg;base64,QUJD")
      = ChatOutcome.fallbackReply uploadPrompt
    ∧ chat_handler true [] "please look at this" none
      = ChatOutcome.llmRequest
          [⟨"user", [GeminiPart.text webSystemPrompt]⟩,
           ⟨"model", [GeminiPart.text "I\x27ll follow these instructions carefully."]⟩,
           ⟨"user", [GeminiPart.text "please look at this"]⟩] := by decide

/-- C6, amended.  In the clean pipeline processor, any transcription or
text containing `"camera"` or `"look at"` always yields the fixed
upload-prompt `TextFrame` and never reaches the LLM (no image can be
attached to a text turn there; images travel as separate frames).  In the
web interface the image-attached behaviour depends on the API key: without
a key the fallback returns the upload prompt even when an image is
attached, and with a key the turn is always forwarded to the Gemini model,
with the image inlined into the last user message when attached. -/
theorem camera_routing_amended (t : String)
    (h : containsStr (pyLower t) "camera" = true
          ∨ containsStr (pyLower t) "look at" = true) :
    cleanProcessFrame (Frame.transcription t) FrameDirection.downstream
      = [(Frame.text uploadPrompt, FrameDirection.downstream)]
    ∧ cleanProcessFrame (Frame.text t) FrameDirection.downstream
      = [(Frame.text uploadPrompt, FrameDirection.downstream)]
    ∧ chat_handler false [] "please look at this" (some "data:image/jpeg;base64,QUJD")
      = ChatOutcome.fallbackReply uploadPrompt
    ∧ chat_handler true [] "please look at this" (some "data:image/jpeg;base64,QUJD")
      = ChatOutcome.llmRequest
          [⟨"user", [GeminiPart.text webSystemPrompt]⟩,
           ⟨"model", [GeminiPart.text "I\x27ll follow these instructions carefully."]⟩,
           ⟨"user", [GeminiPart.text "please look at this",
                     GeminiPart.inlineData "image/jpeg" "QUJD"]⟩] := by
  refine ⟨?_, ?_, by decide, by decide⟩ <;>
    rcases h with h | h <;> simp [cleanProcessFrame, h]

/-- C6, witness for the amended theorem at the input `"please look at this"`. -/
theorem camera_routing_amended_witness :
    (containsStr (pyLower "please look at this") "camera" = true
      ∨ containsStr (pyLower "please look at this") "look at" = true)
    ∧ cleanProcessFrame (Frame.transcription "please look at this") FrameDirection.downstream
        = [(Frame.text uploadPrompt, FrameDirection.downstream)] :=
  ⟨Or.inr (by decide),
   (camera_routing_amended "please look at this" (Or.inr (by decide))).1⟩

/-- C7, counterexample.  An unrecognized frame arriving upstream is
re-emitted by `simple_tutor.py`'s processor, but downstream: the direction
is not preserved, so the output multiset is not `{(frame, upstream)}`. -/
theorem transparency_direction_counterexample :
    simpleProcessFrame (Frame.other "metrics") FrameDirection.upstream
      = [(Frame.other "metrics", FrameDirection.downstream)]
    ∧ (Frame.other "metrics", FrameDirection.upstream)
        ∉ simpleProcessFrame (Frame.other "metrics") FrameDirection.upstream := by decide

/-- C7, amended.  Both tutor processors forward any frame type they do not
explicitly handle as exactly one unchanged frame, but always downstream:
the `else` branches call `push_frame(frame)` with no direction argument,
so pipecat's `DOWNSTREAM` default applies and the arrival direction is
dropped.  The transparency invariant as claimed holds only for frames
arriving downstream. -/
theorem transparency_amended (f : Frame) (dir : FrameDirection)
    (h : tutorHandles f = false) :
    cleanProcessFrame f dir = [(f, FrameDirection.downstream)]
    ∧ simpleProcessFrame f dir = [(f, FrameDirection.downstream)] := by
  cases f with
  | transcription t => simp [tutorHandles] at h
  | text t => simp [tutorHandles] at h
  | llmMessages msgs => exact ⟨rfl, rfl⟩
  | image d => exact ⟨rfl, rfl⟩
  | other k => exact ⟨rfl, rfl⟩

/-- C7, witness for the amended theorem at an unrecognized frame arriving
upstream. -/
theorem transparency_amended_witness :
    tutorHandles (Frame.other "audio") = false
    ∧ cleanProcessFrame (Frame.other "audio") FrameDirection.upstream
        = [(Frame.other "audio", FrameDirection.downstream)] :=
  ⟨by decide,
   (transparency_amended (Frame.other "audio") FrameDirection.upstream (by decide)).1⟩

/-- C8, confirmed.  Applying `save_user_profile` twice with the same
arguments equals applying it once; the key set (hence field order and
presence) is unchanged; a key not assigned by the arguments keeps its
previous value; and an argument key absent from the stored profile is
ignored — it is still absent afterwards. -/
theorem update_profile_idempotent {V : Type} (p args : List (String × V)) (k : String) :
    save_user_profile (save_user_profile p args) args = save_user_profile p args
    ∧ (save_user_profile p args).map Prod.fst = p.map Prod.fst
    ∧ (k ∉ args.map Prod.fst →
        lookupKey (save_user_profile p args) k = lookupKey p k)
    ∧ (k ∉ p.map Prod.fst → lookupKey (save_user_profile p args) k = none) := by
  refine ⟨?_, ?_, fun hargs => ?_, fun hp => ?_⟩
  · rw [save_user_profile_closed_form, save_user_profile_closed_form, List.map_map]
    apply List.map_congr_left
    intro kv _
    show ((kv.1, (lastAssign args kv.1).getD kv.2).1,
          (lastAssign args (kv.1, (lastAssign args kv.1).getD kv.2).1).getD
            (kv.1, (lastAssign args kv.1).getD kv.2).2)
        = (kv.1, (lastAssign args kv.1).getD kv.2)
    cases hr : lastAssign args kv.1 <;> simp [hr]
  · rw [save_user_profile_closed_form, List.map_map]
    rfl
  · have hnone := lastAssign_of_not_mem args k hargs
    rw [save_user_profile_closed_form]
    induction p with
    | nil => rfl
    | cons a rest ih =>
      show (if a.1 = k then _ else _) = (if a.1 = k then some a.2 else lookupKey rest k)
      by_cases hk : a.1 = k
      · rw [if_pos hk, if_pos hk]
        show some ((lastAssign args a.1).getD a.2) = some a.2
        rw [hk, hnone]
        rfl
      · rw [if_neg hk, if_neg hk]
        exact ih
  · refine lookupKey_of_not_mem _ k ?_
    rw [save_user_profile_closed_form, List.map_map]
    exact hp

/-- C8, witness for the confirmed theorem at a concrete profile and
argument dict: idempotence, an untouched field, and a silently ignored
unknown argument key. -/
theorem update_profile_idempotent_witness :
    ("level" ∉ argsFixture.map Prod.fst ∧ "unknown_field" ∉ profileFixture.map Prod.fst)
    ∧ save_user_profile (save_user_profile profileFixture argsFixture) argsFixture
        = save_user_profile profileFixture argsFixture
    ∧ lookupKey (save_user_profile profileFixture argsFixture) "level"
        = lookupKey profileFixture "level"
    ∧ lookupKey (save_user_profile profileFixture argsFixture) "unknown_field" = none :=
  ⟨⟨by decide, by decide⟩,
   (update_profile_idempotent profileFixture argsFixture "level").1,
   (update_profile_idempotent profileFixture argsFixture "level").2.2.1 (by decide),
   (update_profile_idempotent profileFixture argsFixture "unknown_field").2.2.2 (by decide)⟩

/-- C9, counterexample.  One 60-second tick of the heartbeat task executes
`task.queue_frames([])`: zero frames enter the pipeline, not the claimed
exactly-one `Heartbeat` control frame (no heartbeat frame kind exists in
the code at all). -/
theorem heartbeat_counterexample :
    queueAfterHeartbeatTicks [] 1 = [] ∧ heartbeatQueuedFrames.length ≠ 1 := by decide

/-- C9, amended.  The heartbeat task fires every 60 seconds
unconditionally — no state or recent-activity check guards it — and each
tick queues the empty frame list, so after any number of ticks the
pipeline's queued frames are exactly what was queued before: no frame is
ever emitted by the heartbeat, hence trivially none transitions state and
none can appear in the persisted transcript. -/
theorem heartbeat_amended (q : List Frame) (n : Nat) :
    queueAfterHeartbeatTicks q n = q := by
  induction n generalizing q with
  | zero => rfl
  | succ n ih =>
    show queueAfterHeartbeatTicks (q ++ heartbeatQueuedFrames) n = q
    rw [ih]
    simp [heartbeatQueuedFrames]

/-- C10, confirmed.  For a non-empty history, `get_lesson_history` with
`limit = 0` returns the entire history in original order (the slice
`history[-0:]` is the whole list); for `limit ≥ 1` it returns the final
segment of the history — `min limit length` records, in chronological
order, such that the history is the untaken records followed by the
returned ones. -/
theorem lesson_history_limit_zero (history : List LessonRecord) (limit : Nat)
    (hne : history ≠ []) :
    get_lesson_history history 0 = history
    ∧ (1 ≤ limit →
        get_lesson_history history limit = history.drop (history.length - limit)
        ∧ (get_lesson_history history limit).length = min limit history.length
        ∧ history.take (history.length - limit) ++ get_lesson_history history limit
            = history) := by
  have hni : history.isEmpty = false := by simpa [List.isEmpty_iff] using hne
  refine ⟨?_, fun hl => ?_⟩
  · simp [get_lesson_history, hni]
  · have h0 : limit ≠ 0 := by omega
    have heq : get_lesson_history history limit
        = history.drop (history.length - limit) := by
      simp [get_lesson_history, hni, h0]
    refine ⟨heq, ?_, ?_⟩
    · rw [heq, List.length_drop]
      omega
    · rw [heq, List.take_append_drop]

/-- C10, witness for the confirmed theorem at a concrete three-record
history. -/
theorem lesson_history_limit_zero_witness :
    (([⟨"a", "b", "c"⟩, ⟨"d", "e", "f"⟩, ⟨"g", "h", "i"⟩] : List LessonRecord) ≠ []
      ∧ (1 : Nat) ≤ 2)
    ∧ get_lesson_history [⟨"a", "b", "c"⟩, ⟨"d", "e", "f"⟩, ⟨"g", "h", "i"⟩] 0
        = [⟨"a", "b", "c"⟩, ⟨"d", "e", "f"⟩, ⟨"g", "h", "i"⟩]
    ∧ get_lesson_history [⟨"a", "b", "c"⟩, ⟨"d", "e", "f"⟩, ⟨"g", "h", "i"⟩] 2
        = ([⟨"a", "b", "c"⟩, ⟨"d", "e", "f"⟩, ⟨"g", "h", "i"⟩] : List LessonRecord).drop
            (([⟨"a", "b", "c"⟩, ⟨"d", "e", "f"⟩, ⟨"g", "h", "i"⟩] : List LessonRecord).length
              - 2) :=
  ⟨⟨by decide, by decide⟩,
   (lesson_history_limit_zero [⟨"a", "b", "c"⟩, ⟨"d", "e", "f"⟩, ⟨"g", "h", "i"⟩] 2
      (by decide)).1,
   ((lesson_history_limit_zero [⟨"a", "b", "c"⟩, ⟨"d", "e", "f"⟩, ⟨"g", "h", "i"⟩] 2
      (by decide)).2 (by decide)).1⟩

end JapaneseTutor
